import Mathlib

/-!
Verification development for the authentication and session-lifecycle
subsystem of `tiled` (`tiled/server/authentication.py`).

The embedding below translates the Python source into Lean:

* JWTs (`python-jose`) are modelled by an idealized signed-token type `Jwt`:
  a token records the claims data, the `type` tag, the absolute `exp` time,
  and the key it was signed with.  `jwtDecode` models `jose.jwt.decode`:
  a wrong key is a signature failure (`JWTError`), a right key with a past
  `exp` is `ExpiredSignatureError` (jose checks the signature before the
  claims), otherwise the claims are returned.  A malformed/garbage token is
  represented by a token whose key is outside the configured key list: it
  fails verification under every key, exactly as garbage does.
* Times and durations are `Nat` seconds; `datetime.now()` is an explicit
  `now : Nat` argument.
* The SQLAlchemy store is an explicit `DB` state: lists of rows plus
  counters for the auto-generated primary keys.  Auto-generated uuids are
  determinized as injective functions of the row counter.
* Python exceptions are an `Except PyError` result; `HTTPException` carries
  its status, detail, and headers.  Attribute access on `None`
  (e.g. `session.revoked = True` when the query returned no row) is the
  `attributeError` outcome.
-/

namespace Tiled

/-! ## Errors -/

/-- `fastapi.HTTPException`: status code, detail message, extra headers. -/
structure HTTPError where
  status_code : Nat
  detail : String
  headers : List (String × String)
deriving DecidableEq, Repr

/-- Python exception outcomes visible in this module. -/
inductive PyError where
  | expiredSignatureError
  | http (e : HTTPError)
  | attributeError
  | indexError
deriving DecidableEq, Repr

/-! ## Idealized JWT (python-jose) -/

/-- Outcomes of `jose.jwt.decode` for a single key. -/
inductive JoseError where
  | expired
  | badSig
deriving DecidableEq, Repr

/-- A signed token: claims data, `type` tag, absolute expiry, signing key. -/
structure Jwt (α : Type) where
  payload : α
  typ : String
  exp : Nat
  key : String
deriving DecidableEq, Repr

/-- `jose.jwt.decode(token, key, algorithms=[ALGORITHM])`: signature is
verified first (wrong key ⇒ `JWTError`), then the `exp` claim
(`exp < now` ⇒ `ExpiredSignatureError`), else the claims are returned. -/
def jwtDecode {α : Type} (token : Jwt α) (secret_key : String) (now : Nat) :
    Except JoseError α :=
  if token.key ≠ secret_key then .error .badSig
  else if token.exp < now then .error .expired
  else .ok token.payload

/-- Claims of an access token: `{"sub": ..., "sub_typ": ..., "ids": [...]}`;
each entry of `ids` is an `{"id": ..., "idp": ...}` pair. -/
structure AccessData where
  sub : String
  sub_typ : String
  ids : List (String × String)
deriving DecidableEq, Repr

/-- Claims of a refresh token: `{"sid": ...}`. -/
structure RefreshData where
  sid : String
deriving DecidableEq, Repr

/-- `create_access_token(data, secret_key, expires_delta)`. -/
def create_access_token (data : AccessData) (secret_key : String)
    (expires_delta : Nat) (now : Nat) : Jwt AccessData :=
  { payload := data, typ := "access", exp := now + expires_delta, key := secret_key }

/-- `create_refresh_token(session_id, secret_key, expires_delta)`. -/
def create_refresh_token (session_id : String) (secret_key : String)
    (expires_delta : Nat) (now : Nat) : Jwt RefreshData :=
  { payload := { sid := session_id }, typ := "refresh",
    exp := now + expires_delta, key := secret_key }

/-- The `credentials_exception` built at the top of `decode_token`. -/
def credentialsException : HTTPError :=
  { status_code := 401, detail := "Could not validate credentials",
    headers := [("WWW-Authenticate", "Bearer")] }

/-- The 401 raised by `check_single_user_api_key` on a mismatched key. -/
def invalidApiKeyException : HTTPError :=
  { status_code := 401, detail := "Invalid API key", headers := [] }

/-- The 401 raised by `get_current_principal` when no token is presented and
anonymous access is disallowed; its headers point the client at the root. -/
def notAuthenticatedException (base_url : String) : HTTPError :=
  { status_code := 401, detail := "Not authenticated",
    headers := [("X-Tiled-Root", base_url)] }

/-- The 401 raised by `get_current_principal` on `ExpiredSignatureError`. -/
def expiredAccessTokenException : HTTPError :=
  { status_code := 401, detail := "Access token has expired. Refresh token.",
    headers := [] }

/-- The 401 raised by `slide_session` for an expired/revoked/missing session
(and for an expired refresh-token signature): one identical payload. -/
def sessionExpiredException : HTTPError :=
  { status_code := 401, detail := "Session has expired. Please re-authenticate.",
    headers := [] }

/-- `decode_token(token, secret_keys)`: try each key in order; `break` on the
first success, re-`raise` on `ExpiredSignatureError`, `continue` on any other
`JWTError`; the `for`/`else` raises `credentials_exception` when every key
has been tried without success. -/
def decode_token {α : Type} (token : Jwt α) (secret_keys : List String)
    (now : Nat) : Except PyError α :=
  match secret_keys with
  | [] => .error (.http credentialsException)
  | secret_key :: rest =>
    match jwtDecode token secret_key now with
    | .ok payload => .ok payload
    | .error .expired => .error .expiredSignatureError
    | .error .badSig => decode_token token rest now

/-! ## Settings and request material

`tiled.server.settings` is not part of the sources under study; the fields
below are exactly the ones `authentication.py` reads from the settings
object, with durations as `Nat` seconds. -/

structure Settings where
  secret_keys : List String
  single_user_api_key : String
  allow_anonymous_access : Bool
  session_max_age : Nat
  access_token_max_age : Nat
  refresh_token_max_age : Nat
deriving Repr

/-- The credential material extracted from one HTTP request: the access-token
cookie, the `Authorization: Bearer` token (via `oauth2_scheme`), the three
API-key carriers (query parameter, header, cookie; each `auto_error=False`,
hence `Option`), and the base URL used for the `X-Tiled-Root` header. -/
structure RequestModel where
  cookie_access_token : Option (Jwt AccessData)
  bearer_access_token : Option (Jwt AccessData)
  query_api_key : Option String
  header_api_key : Option String
  cookie_api_key : Option String
  base_url : String

/-- `check_single_user_api_key`: iterate over
`[api_key_query, api_key_header, api_key_cookie]`; the first carrier that is
present is compared against `settings.single_user_api_key`
(`secrets.compare_digest`, modelled as string equality): on a match return
`True`, otherwise raise 401 "Invalid API key"; if no carrier is present
return `False`. -/
def checkApiKeyLoop (carriers : List (Option String))
    (single_user_api_key : String) : Except PyError Bool :=
  match carriers with
  | [] => .ok false
  | none :: rest => checkApiKeyLoop rest single_user_api_key
  | some api_key :: _ =>
    if api_key = single_user_api_key then .ok true
    else .error (.http invalidApiKeyException)

def check_single_user_api_key (api_key_query api_key_header api_key_cookie :
    Option String) (settings : Settings) : Except PyError Bool :=
  checkApiKeyLoop [api_key_query, api_key_header, api_key_cookie]
    settings.single_user_api_key

/-- First present element of a list of optional values (the carrier the
Python loop actually examines). -/
def firstSome {α : Type} : List (Option α) → Option α
  | [] => none
  | some x :: _ => some x
  | none :: rest => firstSome rest

/-! ## The store (`tiled.database.orm` rows) -/

structure PrincipalRow where
  id : Nat
  uuid : String
  type : String
deriving DecidableEq, Repr

structure IdentityRow where
  id : String
  provider : String
  principal_id : Nat
deriving DecidableEq, Repr

structure SessionRow where
  id : Nat
  uuid : String
  principal_id : Nat
  expiration_time : Nat
  revoked : Bool
  refresh_count : Nat
  time_last_refreshed : Option Nat
deriving DecidableEq, Repr

/-- The relational store: the three tables plus the auto-increment counters
that feed the generated primary keys / uuids. -/
structure DB where
  principals : List PrincipalRow
  identities : List IdentityRow
  sessions : List SessionRow
  nextPrincipalId : Nat
  nextSessionId : Nat
deriving DecidableEq, Repr

def DB.empty : DB :=
  { principals := [], identities := [], sessions := [],
    nextPrincipalId := 0, nextSessionId := 0 }

/-- Determinized auto-generated uuid for the n-th Principal row. -/
def newPrincipalUuid (n : Nat) : String := "principal-uuid-" ++ toString n

/-- Determinized auto-generated uuid for the n-th Session row. -/
def newSessionUuid (n : Nat) : String := "session-uuid-" ++ toString n

/-- `identity.principal` / `session.principal`: follow the foreign key. -/
def findPrincipal (db : DB) (principal_id : Nat) : Option PrincipalRow :=
  db.principals.find? (fun p => p.id == principal_id)

/-- Pydantic `Principal.from_orm`: the model carries the row's uuid and type
together with the Principal's full Identity set, each identity as its
`(id, provider)` pair. -/
structure PrincipalModel where
  uuid : String
  type : String
  identities : List (String × String)
deriving DecidableEq, Repr

def principalFromOrm (db : DB) (row : PrincipalRow) : PrincipalModel :=
  { uuid := row.uuid, type := row.type,
    identities := (db.identities.filter (fun i => i.principal_id == row.id)).map
      (fun i => (i.id, i.provider)) }

/-- Modelled from the spec: the ORM `Session` column defaults come from
`tiled.database.orm`, which is not among the sources under study.  The spec
fixes them: "Create a new Session row with
`expiration_time = now + session_max_age`, `revoked=false`,
`refresh_count=0`", with `time_last_refreshed` unset until the first
refresh. -/
def newSessionRow (sid : Nat) (principal_id : Nat) (expiration_time : Nat) :
    SessionRow :=
  { id := sid, uuid := newSessionUuid sid, principal_id := principal_id,
    expiration_time := expiration_time, revoked := false, refresh_count := 0,
    time_last_refreshed := none }

/-- Update the first element satisfying `p` (the row returned by
`.first()`), leave the rest unchanged. -/
def updateFirst {α : Type} (p : α → Bool) (f : α → α) : List α → List α
  | [] => []
  | x :: xs => if p x then f x :: xs else x :: updateFirst p f xs

/-! ## The resolved principal -/

/-- Result of `get_current_principal`: one of the `SpecialUsers` sentinels
(`admin`, `public` — modelled from the spec: `tiled.utils.SpecialUsers`, not
among the sources under study, is described as "a sentinel", a bare marker
value carrying no uuid/identities record fields), or an ephemeral Principal
model built from token claims. -/
inductive PrincipalResult where
  | admin
  | public
  | user (p : PrincipalModel)
deriving DecidableEq, Repr

/-- `get_current_principal`: the per-request resolver.  Mirrors the source
line by line; note that the source function has no `db` dependency at all,
so this path is structurally store-free.  (The `request.state.cookies_to_set`
convenience side effect of the admin branch is not part of the returned
value and is not modelled.) -/
def get_current_principal (request : RequestModel) (settings : Settings)
    (authenticators : List String) (now : Nat) : Except PyError PrincipalResult :=
  match check_single_user_api_key request.query_api_key request.header_api_key
      request.cookie_api_key settings with
  | .error e => .error e
  | .ok has_single_user_api_key =>
    if authenticators.isEmpty && has_single_user_api_key then
      .ok .admin
    else
      -- request.cookies.get(ACCESS_TOKEN_COOKIE_NAME, access_token)
      match request.cookie_access_token.orElse (fun _ => request.bearer_access_token) with
      | none =>
        if settings.allow_anonymous_access then
          .ok .public
        else
          .error (.http (notAuthenticatedException request.base_url))
      | some token =>
        match decode_token token settings.secret_keys now with
        | .error .expiredSignatureError =>
          .error (.http expiredAccessTokenException)
        | .error e => .error e
        | .ok payload =>
          .ok (.user { uuid := payload.sub, type := payload.sub_typ,
                       identities := payload.ids })

/-! ## Token bundle -/

/-- The dict returned by `create_session` / `slide_session`.
`expires_in = access_token_max_age / UNIT_SECOND` is the duration in seconds,
i.e. the `Nat` itself in this model. -/
structure TokenBundle where
  access_token : Jwt AccessData
  expires_in : Nat
  refresh_token : Jwt RefreshData
  refresh_token_expires_in : Nat
  token_type : String
deriving DecidableEq, Repr

/-! ## create_session -/

/-- Shared tail of `create_session` (source lines 203-239): insert and commit
the new Session row, then build the token pair from the Principal's full
Identity set, encoding both tokens with `settings.secret_keys[0]`.
Returns the store states committed by this tail together with the result;
`secret_keys[0]` on an empty key list is Python's `IndexError`. -/
def finishCreateSession (db : DB) (commits : List DB) (settings : Settings)
    (principal : PrincipalRow) (now : Nat) :
    List DB × Except PyError (DB × TokenBundle) :=
  let session := newSessionRow db.nextSessionId principal.id
    (now + settings.session_max_age)
  let db' : DB := { db with sessions := db.sessions ++ [session],
                            nextSessionId := db.nextSessionId + 1 }
  let commits' := commits ++ [db']
  match settings.secret_keys with
  | [] => (commits', .error .indexError)
  | secret_key :: _ =>
    let principal_model := principalFromOrm db' principal
    let data : AccessData :=
      { sub := principal_model.uuid, sub_typ := principal_model.type,
        ids := principal_model.identities }
    let access_token := create_access_token data secret_key
      settings.access_token_max_age now
    let refresh_token := create_refresh_token session.uuid secret_key
      settings.refresh_token_max_age now
    (commits', .ok (db', {
      access_token := access_token,
      expires_in := settings.access_token_max_age,
      refresh_token := refresh_token,
      refresh_token_expires_in := settings.refresh_token_max_age,
      token_type := "bearer" }))

/-- `create_session(db, settings, identity_provider, id)`, with the time as
an explicit argument.  Mirrors the source: look the Identity up by
`(id, provider)`; when absent, add *and commit* a new Principal (to sync its
auto-generated key), then add *and commit* the Identity row pointing at it;
when present, reuse `identity.principal`.  Then insert the Session and build
the bundle.  The first component of the result is the sequence of store
states committed by the call, one per `db.commit()` executed, in order. -/
def create_session_run (db : DB) (settings : Settings)
    (identity_provider : String) (id : String) (now : Nat) :
    List DB × Except PyError (DB × TokenBundle) :=
  match db.identities.find? (fun i => i.id == id && i.provider == identity_provider) with
  | none =>
    let principal : PrincipalRow :=
      { id := db.nextPrincipalId, uuid := newPrincipalUuid db.nextPrincipalId,
        type := "user" }
    let db1 : DB := { db with principals := db.principals ++ [principal],
                              nextPrincipalId := db.nextPrincipalId + 1 }
    let identity : IdentityRow :=
      { provider := identity_provider, id := id, principal_id := principal.id }
    let db2 : DB := { db1 with identities := db1.identities ++ [identity] }
    finishCreateSession db2 [db1, db2] settings principal now
  | some identity =>
    match findPrincipal db identity.principal_id with
    | none => ([], .error .attributeError)  -- identity.principal dangling
    | some principal => finishCreateSession db [] settings principal now

/-- `create_session`, final store state and token bundle. -/
def create_session (db : DB) (settings : Settings) (identity_provider : String)
    (id : String) (now : Nat) : Except PyError (DB × TokenBundle) :=
  (create_session_run db settings identity_provider id now).2

/-- The store states committed by a `create_session` call, in order: one per
`db.commit()` the source executes. -/
def create_session_commits (db : DB) (settings : Settings)
    (identity_provider : String) (id : String) (now : Nat) : List DB :=
  (create_session_run db settings identity_provider id now).1

/-! ## revoke_session -/

/-- `revoke_session(session_id)`: find the Session by uuid, set
`revoked := True`, commit, return 204.  The source does *not* handle the case
where the query returns no row: `session.revoked = True` on `None` is an
`AttributeError`. -/
def revoke_session (session_id : String) (db : DB) :
    Except PyError (DB × Nat) :=
  match db.sessions.find? (fun s => s.uuid == session_id) with
  | none => .error .attributeError
  | some _ =>
    let sessions' := updateFirst (fun s => s.uuid == session_id) (fun s => { s with revoked := true }) db.sessions
    .ok ({ db with sessions := sessions' }, 204)

/-! ## slide_session -/

/-- The field update `slide_session` applies to the refreshed Session row:
`time_last_refreshed := now` and the store-side increment
`refresh_count = Session.refresh_count + 1`. -/
def slideUpdate (now : Nat) (s : SessionRow) : SessionRow :=
  { s with time_last_refreshed := some now, refresh_count := s.refresh_count + 1 }

/-- `slide_session(refresh_token, settings, db)`: decode the refresh token
(converting `ExpiredSignatureError` to the session-expired 401; the
`credentials_exception` of `decode_token` propagates unchanged); look the
Session up by the embedded `sid`; if it is missing, revoked, or past its
`expiration_time`, fail with the *same* session-expired 401 in all three
cases; otherwise update the bookkeeping fields and reissue a token pair
bound to the same session id with `secret_keys[0]`. -/
def slide_session (refresh_token : Jwt RefreshData) (settings : Settings)
    (db : DB) (now : Nat) : Except PyError (DB × TokenBundle) :=
  match decode_token refresh_token settings.secret_keys now with
  | .error .expiredSignatureError => .error (.http sessionExpiredException)
  | .error e => .error e
  | .ok payload =>
    match db.sessions.find? (fun s => s.uuid == payload.sid) with
    | none => .error (.http sessionExpiredException)
    | some session =>
      if session.revoked || decide (session.expiration_time < now) then
        .error (.http sessionExpiredException)
      else
        let sessions' := updateFirst (fun s => s.uuid == payload.sid) (slideUpdate now) db.sessions
        let db' : DB := { db with sessions := sessions' }
        match findPrincipal db session.principal_id with
        | none => .error .attributeError  -- session.principal dangling
        | some principal_row =>
          match settings.secret_keys with
          | [] => .error .indexError
          | secret_key :: _ =>
            let principal := principalFromOrm db principal_row
            let data : AccessData :=
              { sub := principal.uuid, sub_typ := principal.type,
                ids := principal.identities }
            let access_token := create_access_token data secret_key
              settings.access_token_max_age now
            let new_refresh_token := create_refresh_token payload.sid secret_key
              settings.refresh_token_max_age now
            .ok (db', {
              access_token := access_token,
              expires_in := settings.access_token_max_age,
              refresh_token := new_refresh_token,
              refresh_token_expires_in := settings.refresh_token_max_age,
              token_type := "bearer" })

/-! ## whoami -/

/-- `whoami(principal, db)`: `None` maps to a `None` response; otherwise look
the Principal up in the store by `principal.uuid` and return the full stored
record.  A `SpecialUsers` sentinel (`admin`/`public`) is not `None` but has
no `uuid` attribute, so the lookup faults; `Principal.from_orm(None)` (uuid
not found in the store) likewise faults. -/
def whoami (principal : Option PrincipalResult) (db : DB) :
    Except PyError (Option PrincipalModel) :=
  match principal with
  | none => .ok none
  | some (.user p) =>
    match db.principals.find? (fun r => r.uuid == p.uuid) with
    | none => .error .attributeError
    | some row => .ok (some (principalFromOrm db row))
  | some _ => .error .attributeError

/-! ## Concrete fixtures used by the witnesses -/

def testSettings : Settings :=
  { secret_keys := ["current-key", "old-key"], single_user_api_key := "local-api-key",
    allow_anonymous_access := false, session_max_age := 1000,
    access_token_max_age := 15, refresh_token_max_age := 100 }

def anonSettings : Settings := { testSettings with allow_anonymous_access := true }

/-- A request presenting no credential material at all. -/
def bareRequest : RequestModel :=
  { cookie_access_token := none, bearer_access_token := none,
    query_api_key := none, header_api_key := none, cookie_api_key := none,
    base_url := "https://example.com/api" }

def activeSession : SessionRow :=
  { id := 0, uuid := "session-uuid-0", principal_id := 0, expiration_time := 1000,
    revoked := false, refresh_count := 0, time_last_refreshed := none }

/-- A one-user store whose session `session-uuid-0` is active. -/
def oneUserDb : DB :=
  { principals := [{ id := 0, uuid := "principal-uuid-0", type := "user" }],
    identities := [{ id := "alice", provider := "orcid", principal_id := 0 }],
    sessions := [activeSession], nextPrincipalId := 1, nextSessionId := 1 }

def revokedDb : DB := { oneUserDb with sessions := [{ activeSession with revoked := true }] }

def expiredDb : DB := { oneUserDb with sessions := [{ activeSession with expiration_time := 3 }] }

/-- A refresh token for `session-uuid-0` signed with the current key at t=0. -/
def testRefreshToken : Jwt RefreshData := create_refresh_token "session-uuid-0" "current-key" 100 0

/-! ## Helper lemmas about decode_token -/

theorem decode_token_skip_badSig {α : Type} (t : Jwt α) (now : Nat)
    (ks₁ ks₂ : List String)
    (h : ∀ k' ∈ ks₁, jwtDecode t k' now = .error .badSig) :
    decode_token t (ks₁ ++ ks₂) now = decode_token t ks₂ now := by
  induction ks₁ with
  | nil => rfl
  | cons k rest ih =>
    have hk : jwtDecode t k now = .error .badSig := h k (List.mem_cons_self _ _)
    simp only [List.cons_append, decode_token, hk]
    exact ih (fun k' hk' => h k' (List.mem_cons_of_mem _ hk'))

theorem decode_token_ok_of_mem {α : Type} (t : Jwt α) (now : Nat)
    (ks : List String) (hmem : t.key ∈ ks) (hlive : ¬ t.exp < now) :
    decode_token t ks now = .ok t.payload := by
  induction ks with
  | nil => cases hmem
  | cons k rest ih =>
    by_cases hkk : t.key = k
    · simp [decode_token, jwtDecode, hkk, hlive]
    · have : t.key ∈ rest := by
        rcases List.mem_cons.mp hmem with h | h
        · exact absurd h hkk
        · exact h
      simp [decode_token, jwtDecode, hkk, ih this]

theorem decode_token_all_badSig {α : Type} (t : Jwt α) (now : Nat) :
    ∀ ks : List String, (∀ k' ∈ ks, jwtDecode t k' now = .error .badSig) →
      decode_token t ks now = .error (.http credentialsException) := by
  intro ks
  induction ks with
  | nil => intro _; rfl
  | cons k rest ih =>
    intro h
    have hk : jwtDecode t k now = .error .badSig := h k (List.mem_cons_self _ _)
    simp only [decode_token, hk]
    exact ih (fun k' hk' => h k' (List.mem_cons_of_mem _ hk'))

theorem decode_token_expired_of_verifies {α : Type} (t : Jwt α) (now : Nat)
    (ks : List String) (hmem : t.key ∈ ks) (hexp : t.exp < now) :
    decode_token t ks now = .error .expiredSignatureError := by
  induction ks with
  | nil => cases hmem
  | cons k rest ih =>
    by_cases hkk : t.key = k
    · simp [decode_token, jwtDecode, hkk, hexp]
    · have : t.key ∈ rest := by
        rcases List.mem_cons.mp hmem with h | h
        · exact absurd h hkk
        · exact h
      simp [decode_token, jwtDecode, hkk, ih this]

/-! ## Helper lemmas about updateFirst -/

theorem updateFirst_find? {α : Type} (p : α → Bool) (f : α → α)
    (hpf : ∀ x, p (f x) = p x) :
    ∀ (l : List α) (s : α), l.find? p = some s →
      (updateFirst p f l).find? p = some (f s) := by
  intro l
  induction l with
  | nil => intro s h; cases h
  | cons x xs ih =>
    intro s h
    by_cases hp : p x
    · rw [List.find?_cons_of_pos _ hp] at h
      injection h with h'
      subst h'
      have hfx : p (f x) = true := by rw [hpf x]; exact hp
      simp only [updateFirst, if_pos hp]
      exact List.find?_cons_of_pos _ hfx
    · rw [List.find?_cons_of_neg _ hp] at h
      simp only [updateFirst, if_neg hp]
      rw [List.find?_cons_of_neg _ hp]
      exact ih s h

theorem updateFirst_idem {α : Type} (p : α → Bool) (f : α → α)
    (hpf : ∀ x, p (f x) = p x) (hff : ∀ x, f (f x) = f x) :
    ∀ l : List α, updateFirst p f (updateFirst p f l) = updateFirst p f l := by
  intro l
  induction l with
  | nil => rfl
  | cons x xs ih =>
    by_cases hp : p x
    · simp [updateFirst, hp, hpf x ▸ hp, hff x, hpf]
    · simp [updateFirst, hp, ih]

/-! ## Claim theorems -/

/-- C2: `decode_token` tries the keys in order.  (1) A token signed with any
key still present in the list, with `exp` not yet passed, decodes to its
claims.  (2) The first key that verifies wins.  (3) If a key verifies the
signature but the claims are past `exp`, `ExpiredSignatureError` is raised
immediately, for *any* continuation `ks₂` of later keys (so no later key is
tried).  (4) The generic `credentials_exception`
("Could not validate credentials") is raised only once every key has failed
verification for a reason other than expiry. -/
theorem decode_token_key_rotation {α : Type} (t : Jwt α) (now : Nat) :
    (∀ ks : List String, t.key ∈ ks → ¬ t.exp < now →
      decode_token t ks now = .ok t.payload) ∧
    (∀ (ks₁ ks₂ : List String) (k : String) (c : α),
      (∀ k' ∈ ks₁, jwtDecode t k' now = .error .badSig) →
      jwtDecode t k now = .ok c →
      decode_token t (ks₁ ++ k :: ks₂) now = .ok c) ∧
    (∀ (ks₁ ks₂ : List String) (k : String),
      (∀ k' ∈ ks₁, jwtDecode t k' now = .error .badSig) →
      jwtDecode t k now = .error .expired →
      decode_token t (ks₁ ++ k :: ks₂) now = .error .expiredSignatureError) ∧
    (∀ ks : List String, ks ≠ [] →
      (∀ k' ∈ ks, jwtDecode t k' now = .error .badSig) →
      decode_token t ks now = .error (.http credentialsException)) := by
  refine ⟨fun ks hmem hlive => decode_token_ok_of_mem t now ks hmem hlive, ?_, ?_, ?_⟩
  · intro ks₁ ks₂ k c hbad hok
    rw [decode_token_skip_badSig t now ks₁ (k :: ks₂) hbad]
    simp [decode_token, hok]
  · intro ks₁ ks₂ k hbad hexp
    rw [decode_token_skip_badSig t now ks₁ (k :: ks₂) hbad]
    simp [decode_token, hexp]
  · intro ks _ hbad
    exact decode_token_all_badSig t now ks hbad

/-- Witness for C2 at concrete inputs: a refresh token signed with the
retained old key decodes under `[current, old]`; an *expired* token signed
with the old key fails with `ExpiredSignatureError` even though another key
follows in the list; a token signed with a key outside the list (garbage)
fails with the generic `credentials_exception`. -/
theorem decode_token_key_rotation_witness :
    decode_token (create_refresh_token "sid-1" "old-key" 100 0)
      ["current-key", "old-key"] 5 = .ok { sid := "sid-1" } ∧
    decode_token (create_refresh_token "sid-1" "old-key" 2 0)
      ["current-key", "old-key", "current-key"] 5 = .error .expiredSignatureError ∧
    decode_token (create_refresh_token "sid-1" "forged-key" 100 0)
      ["current-key", "old-key"] 5 = .error (.http credentialsException) := by
  refine ⟨?_, ?_, ?_⟩
  · exact (decode_token_key_rotation (create_refresh_token "sid-1" "old-key" 100 0) 5).1
      ["current-key", "old-key"] (by simp [create_refresh_token]) (by decide)
  · exact (decode_token_key_rotation (create_refresh_token "sid-1" "old-key" 2 0) 5).2.2.1
      ["current-key"] ["current-key"] "old-key"
      (by intro k' hk'; rw [List.mem_singleton] at hk'; subst hk'; rfl) rfl
  · exact (decode_token_key_rotation (create_refresh_token "sid-1" "forged-key" 100 0) 5).2.2.2
      ["current-key", "old-key"] (by decide)
      (by intro k' hk'; rcases List.mem_cons.mp hk' with h | h
          · subst h; rfl
          · rw [List.mem_singleton] at h; subst h; rfl)

/-- C7: a request with no access token (neither cookie nor bearer header)
and no API key resolves, when anonymous access is enabled, to the `public`
sentinel — via a code path that is structurally store-free
(`get_current_principal` takes no store at all) — and fails with the 401
"Not authenticated" whose headers carry the service base URL
(`X-Tiled-Root`) when anonymous access is disabled. -/
theorem get_current_principal_no_token (request : RequestModel)
    (settings : Settings) (authenticators : List String) (now : Nat)
    (hq : request.query_api_key = none) (hh : request.header_api_key = none)
    (hc : request.cookie_api_key = none)
    (hct : request.cookie_access_token = none)
    (hbt : request.bearer_access_token = none) :
    (settings.allow_anonymous_access = true →
      get_current_principal request settings authenticators now = .ok .public) ∧
    (settings.allow_anonymous_access = false →
      get_current_principal request settings authenticators now =
        .error (.http (notAuthenticatedException request.base_url))) := by
  constructor
  · intro hanon
    simp [get_current_principal, check_single_user_api_key, checkApiKeyLoop,
      hq, hh, hc, hct, hbt, Option.orElse, hanon]
  · intro hanon
    simp [get_current_principal, check_single_user_api_key, checkApiKeyLoop,
      hq, hh, hc, hct, hbt, Option.orElse, hanon]

/-- Witness for C7: the bare request under anonymous-enabled and
anonymous-disabled settings. -/
theorem get_current_principal_no_token_witness :
    get_current_principal bareRequest anonSettings ["orcid"] 0 = .ok .public ∧
    get_current_principal bareRequest testSettings ["orcid"] 0 =
      .error (.http (notAuthenticatedException "https://example.com/api")) := by
  constructor
  · exact (get_current_principal_no_token bareRequest anonSettings ["orcid"] 0
      rfl rfl rfl rfl rfl).1 rfl
  · exact (get_current_principal_no_token bareRequest testSettings ["orcid"] 0
      rfl rfl rfl rfl rfl).2 rfl

/-- C8: a request presenting an access token whose signature verifies under
some configured key but whose `exp` has passed fails with the distinct 401
"Access token has expired. Refresh token." — a different payload from the
generic `credentials_exception` raised when no key verifies. -/
theorem get_current_principal_expired_access_token (request : RequestModel)
    (settings : Settings) (authenticators : List String) (now : Nat)
    (t : Jwt AccessData)
    (hq : request.query_api_key = none) (hh : request.header_api_key = none)
    (hc : request.cookie_api_key = none)
    (ht : request.cookie_access_token.orElse
      (fun _ => request.bearer_access_token) = some t)
    (hmem : t.key ∈ settings.secret_keys) (hexp : t.exp < now) :
    get_current_principal request settings authenticators now =
      .error (.http expiredAccessTokenException) ∧
    expiredAccessTokenException ≠ credentialsException := by
  constructor
  · simp [get_current_principal, check_single_user_api_key, checkApiKeyLoop,
      hq, hh, hc, ht,
      decode_token_expired_of_verifies t now settings.secret_keys hmem hexp]
  · decide

/-- An access token for a test user, signed at t=0 with the retained old key
and a 3-second ttl: expired by t=10. -/
def staleAccessToken : Jwt AccessData :=
  create_access_token { sub := "u", sub_typ := "user", ids := [] } "old-key" 3 0

/-- The bare request presenting `staleAccessToken` via the cookie. -/
def staleTokenRequest : RequestModel :=
  { bareRequest with cookie_access_token := some staleAccessToken }

/-- Witness for C8: an access token signed at t=0 with the retained old key
and ttl 3, presented via the cookie at t=10. -/
theorem get_current_principal_expired_access_token_witness :
    get_current_principal staleTokenRequest testSettings [] 10 =
      .error (.http expiredAccessTokenException) ∧
    expiredAccessTokenException ≠ credentialsException :=
  get_current_principal_expired_access_token staleTokenRequest testSettings [] 10
    staleAccessToken rfl rfl rfl rfl (by decide) (by decide)

/-- `check_single_user_api_key` examines exactly the first present carrier
of `[query, header, cookie]`. -/
theorem check_single_user_api_key_firstSome (q h c : Option String)
    (settings : Settings) :
    check_single_user_api_key q h c settings =
      match firstSome [q, h, c] with
      | none => .ok false
      | some k =>
        if k = settings.single_user_api_key then .ok true
        else .error (.http invalidApiKeyException) := by
  rcases q with _ | kq
  · rcases h with _ | kh
    · rcases c with _ | kc <;> rfl
    · rfl
  · rfl

/-- C10: the API-key carriers are inspected in the order query parameter,
header, cookie, and only the first one present is compared against the
configured single-user key; on a mismatch the whole request fails with 401
"Invalid API key" for *every* value of `authenticators` and of the
access-token carriers — the failure never falls through to bearer-token
resolution. -/
theorem api_key_mismatch_rejects (request : RequestModel) (settings : Settings)
    (authenticators : List String) (now : Nat) (k : String)
    (hfirst : firstSome [request.query_api_key, request.header_api_key,
      request.cookie_api_key] = some k)
    (hne : k ≠ settings.single_user_api_key) :
    get_current_principal request settings authenticators now =
      .error (.http invalidApiKeyException) := by
  unfold get_current_principal
  rw [check_single_user_api_key_firstSome, hfirst]
  simp [hne]

/-- A request carrying a wrong API key in the query parameter, the *correct*
key in the header (never examined, since the query carrier comes first), and
a perfectly valid access token in the cookie. -/
def wrongApiKeyRequest : RequestModel :=
  { bareRequest with
      query_api_key := some "wrong-key",
      header_api_key := some "local-api-key",
      cookie_access_token :=
        some (create_access_token { sub := "u", sub_typ := "user", ids := [] } "current-key" 100 0) }

/-- Witness for C10: `wrongApiKeyRequest` against a deployment with an
external authenticator configured is still rejected with "Invalid API key",
never reaching bearer-token resolution. -/
theorem api_key_mismatch_rejects_witness :
    get_current_principal wrongApiKeyRequest testSettings ["orcid"] 0 =
      .error (.http invalidApiKeyException) :=
  api_key_mismatch_rejects wrongApiKeyRequest testSettings ["orcid"] 0
    "wrong-key" rfl (by decide)

/-- C1: whenever the refresh token decodes successfully (valid signature,
`exp` not passed), `slide_session` fails with one and the same error payload
— 401, "Session has expired. Please re-authenticate." — in all three bad
cases: the referenced Session is missing from the store, is revoked, or has
`expiration_time` earlier than the current time.  A caller cannot
distinguish the three by the response. -/
theorem slide_session_uniform_expiry_error (refresh_token : Jwt RefreshData)
    (settings : Settings) (db : DB) (now : Nat) (payload : RefreshData)
    (hdec : decode_token refresh_token settings.secret_keys now = .ok payload)
    (hbad : db.sessions.find? (fun s => s.uuid == payload.sid) = none ∨
      ∃ s, db.sessions.find? (fun s => s.uuid == payload.sid) = some s ∧
        (s.revoked = true ∨ s.expiration_time < now)) :
    slide_session refresh_token settings db now =
      .error (.http sessionExpiredException) := by
  rcases hbad with hnone | ⟨s, hsome, hcond⟩
  · simp [slide_session, hdec, hnone]
  · rcases hcond with hrev | hexp
    · simp [slide_session, hdec, hsome, hrev]
    · simp [slide_session, hdec, hsome, hexp]

/-- Witness for C1: the same concrete refresh token at t=5 against three
stores — session missing, session revoked, session expired at t=3 — produces
the identical error payload each time. -/
theorem slide_session_uniform_expiry_error_witness :
    slide_session testRefreshToken testSettings DB.empty 5 =
      .error (.http sessionExpiredException) ∧
    slide_session testRefreshToken testSettings revokedDb 5 =
      .error (.http sessionExpiredException) ∧
    slide_session testRefreshToken testSettings expiredDb 5 =
      .error (.http sessionExpiredException) := by
  refine ⟨?_, ?_, ?_⟩
  · exact slide_session_uniform_expiry_error testRefreshToken testSettings
      DB.empty 5 { sid := "session-uuid-0" } rfl (Or.inl rfl)
  · exact slide_session_uniform_expiry_error testRefreshToken testSettings
      revokedDb 5 { sid := "session-uuid-0" } rfl
      (Or.inr ⟨{ activeSession with revoked := true }, rfl, Or.inl rfl⟩)
  · exact slide_session_uniform_expiry_error testRefreshToken testSettings
      expiredDb 5 { sid := "session-uuid-0" } rfl
      (Or.inr ⟨{ activeSession with expiration_time := 3 }, rfl, Or.inr (by decide)⟩)

/-- C3 counterexample: `revoke_session` on a session_id matching no stored
Session does *not* return success — `session.revoked = True` is executed on
the `None` returned by the query, an `AttributeError` (an unhandled 500, not
a 204). -/
theorem revoke_session_missing_faults :
    revoke_session "no-such-session" DB.empty = .error .attributeError := rfl

/-- C3 as amended: for a session_id that matches a stored Session,
`revoke_session` marks it revoked and returns success with status 204, and
the operation is idempotent — revoking an already-revoked session returns
204 again and leaves the store exactly as it was.  (For a session_id
matching no Session the call faults instead of returning success; see the
counterexample.) -/
theorem revoke_session_idempotent_existing (db : DB) (session_id : String)
    (s : SessionRow)
    (h : db.sessions.find? (fun r => r.uuid == session_id) = some s) :
    ∃ db', revoke_session session_id db = .ok (db', 204) ∧
      db'.sessions.find? (fun r => r.uuid == session_id) =
        some { s with revoked := true } ∧
      revoke_session session_id db' = .ok (db', 204) := by
  have hpf : ∀ x : SessionRow,
      ((fun r : SessionRow => r.uuid == session_id)
        ({ x with revoked := true })) = (x.uuid == session_id) := fun _ => rfl
  have hff : ∀ x : SessionRow,
      ({ ({ x with revoked := true }) with revoked := true }) =
        ({ x with revoked := true }) := fun _ => rfl
  have hfind := updateFirst_find? (fun r : SessionRow => r.uuid == session_id)
    (fun t => { t with revoked := true }) hpf db.sessions s h
  refine ⟨{ db with sessions := updateFirst (fun r => r.uuid == session_id) (fun t => { t with revoked := true }) db.sessions }, ?_, ?_, ?_⟩
  · simp [revoke_session, h]
  · exact hfind
  · simp [revoke_session, hfind,
      updateFirst_idem (fun r : SessionRow => r.uuid == session_id)
        (fun t : SessionRow => { t with revoked := true }) hpf hff]

/-- Witness for C3: revoking the active session of `oneUserDb` returns 204
and revoking it again returns 204 on the unchanged store. -/
theorem revoke_session_idempotent_existing_witness :
    ∃ db', revoke_session "session-uuid-0" oneUserDb = .ok (db', 204) ∧
      db'.sessions.find? (fun r => r.uuid == "session-uuid-0") =
        some { activeSession with revoked := true } ∧
      revoke_session "session-uuid-0" db' = .ok (db', 204) :=
  revoke_session_idempotent_existing oneUserDb "session-uuid-0" activeSession rfl

/-- C9 counterexample: an anonymous request (no token, anonymous access
enabled) resolves to the `public` sentinel — not to `None` — and `whoami`
on the `public` sentinel does not return the empty/null result: the
`principal is None` test fails, and the store lookup then faults on the
sentinel's missing `uuid` attribute. -/
theorem whoami_public_not_null :
    get_current_principal bareRequest anonSettings ["orcid"] 0 = .ok .public ∧
    whoami (some .public) DB.empty = .error .attributeError := ⟨rfl, rfl⟩

/-- C9 as amended: `whoami` returns the empty/null result only when the
resolved principal is literally `None` — which `get_current_principal`
never produces.  For a request resolved to the Public sentinel it instead
falls through to the store-lookup path and faults (the sentinel carries no
`uuid`).  For a request resolved to an authenticated Principal whose uuid is
stored, it returns the Principal's stored record including its
Identities. -/
theorem whoami_record_or_null (db : DB) (p : PrincipalModel)
    (row : PrincipalRow)
    (hrow : db.principals.find? (fun r => r.uuid == p.uuid) = some row) :
    whoami none db = .ok none ∧
    whoami (some .public) db = .error .attributeError ∧
    whoami (some (.user p)) db = .ok (some (principalFromOrm db row)) := by
  refine ⟨rfl, rfl, ?_⟩
  simp [whoami, hrow]

/-- Witness for C9 (amended): `whoami` for the stored test user returns the
stored record with its identity list. -/
theorem whoami_record_or_null_witness :
    whoami none oneUserDb = .ok none ∧
    whoami (some .public) oneUserDb = .error .attributeError ∧
    whoami (some (.user { uuid := "principal-uuid-0", type := "user", identities := [] }))
        oneUserDb =
      .ok (some (principalFromOrm oneUserDb
        { id := 0, uuid := "principal-uuid-0", type := "user" })) :=
  whoami_record_or_null oneUserDb
    { uuid := "principal-uuid-0", type := "user", identities := [] }
    { id := 0, uuid := "principal-uuid-0", type := "user" } rfl

/-- C4 counterexample: run `create_session` for a brand-new identity on an
empty store and observe the committed store states.  The first committed
state already contains the new Principal but *no* Identity row: the
Principal and Identity inserts are two separate commits, not one atomic
transaction, so an interruption between them leaves a Principal without its
linking Identity. -/
theorem create_session_partial_commit :
    (create_session_commits DB.empty testSettings "orcid" "alice" 0).map
      (fun d => (d.principals.length, d.identities.length, d.sessions.length)) =
      [(1, 0, 0), (1, 1, 0), (1, 1, 1)] := rfl

/-- C4 as amended: for a `(provider, external_id)` pair with no existing
Identity, `create_session` creates the Principal and the Identity in *two
separate* store commits — the Principal (alone) in the first, the Identity
in the second, the Session in a third — so each insert is individually
committed and an interrupted call can leave the Principal committed without
its linking Identity. -/
theorem create_session_two_commits (db : DB) (settings : Settings)
    (identity_provider id : String) (now : Nat)
    (h : db.identities.find?
      (fun i => i.id == id && i.provider == identity_provider) = none) :
    (create_session_commits db settings identity_provider id now).map
        (fun d => (d.principals, d.identities, d.sessions)) =
      [(db.principals ++ [{ id := db.nextPrincipalId, uuid := newPrincipalUuid db.nextPrincipalId, type := "user" }], db.identities, db.sessions),
       (db.principals ++ [{ id := db.nextPrincipalId, uuid := newPrincipalUuid db.nextPrincipalId, type := "user" }], db.identities ++ [{ id := id, provider := identity_provider, principal_id := db.nextPrincipalId }], db.sessions),
       (db.principals ++ [{ id := db.nextPrincipalId, uuid := newPrincipalUuid db.nextPrincipalId, type := "user" }], db.identities ++ [{ id := id, provider := identity_provider, principal_id := db.nextPrincipalId }], db.sessions ++ [newSessionRow db.nextSessionId db.nextPrincipalId (now + settings.session_max_age)])] := by
  cases hks : settings.secret_keys with
  | nil =>
    simp [create_session_commits, create_session_run, finishCreateSession, h, hks]
  | cons k ks =>
    simp [create_session_commits, create_session_run, finishCreateSession, h, hks]

/-- Witness for C4 (amended): the commit trace for a first login on the
empty store. -/
theorem create_session_two_commits_witness :
    (create_session_commits DB.empty testSettings "orcid" "alice" 0).map
        (fun d => (d.principals, d.identities, d.sessions)) =
      [([{ id := 0, uuid := newPrincipalUuid 0, type := "user" }], [], []),
       ([{ id := 0, uuid := newPrincipalUuid 0, type := "user" }], [{ id := "alice", provider := "orcid", principal_id := 0 }], []),
       ([{ id := 0, uuid := newPrincipalUuid 0, type := "user" }], [{ id := "alice", provider := "orcid", principal_id := 0 }], [newSessionRow 0 0 (0 + testSettings.session_max_age)])] :=
  create_session_two_commits DB.empty testSettings "orcid" "alice" 0 rfl

/-- The relation between a Session row before and after a successful
`slide_session`: the row keeps its uuid, principal link, expiration time and
revocation flag, and is either untouched or has exactly
`time_last_refreshed := now` and `refresh_count` incremented by one. -/
def slideFrame (now : Nat) (o n : SessionRow) : Prop :=
  n.uuid = o.uuid ∧ n.principal_id = o.principal_id ∧
  n.expiration_time = o.expiration_time ∧ n.revoked = o.revoked ∧
  (n = o ∨ (n.time_last_refreshed = some now ∧ n.refresh_count = o.refresh_count + 1))

theorem slideFrame_refl (now : Nat) (s : SessionRow) : slideFrame now s s :=
  ⟨rfl, rfl, rfl, rfl, Or.inl rfl⟩

theorem slideFrame_updateFirst (now : Nat) (p : SessionRow → Bool) :
    ∀ l : List SessionRow,
      List.Forall₂ (slideFrame now) l (updateFirst p (slideUpdate now) l) := by
  intro l
  induction l with
  | nil => exact .nil
  | cons x xs ih =>
    by_cases hp : p x
    · simp only [updateFirst, if_pos hp]
      exact .cons ⟨rfl, rfl, rfl, rfl, Or.inr ⟨rfl, rfl⟩⟩
        (List.forall₂_same.mpr fun y _ => slideFrame_refl now y)
    · simp only [updateFirst, if_neg hp]
      exact .cons (slideFrame_refl now x) ih

/-- C5: a successful `slide_session` leaves the principals and identities
tables, the store counters, and every Session row's `uuid`, `principal_id`,
`expiration_time` and `revoked` flag unchanged; each Session row is either
untouched or — for the refreshed one — mutated in exactly the two
bookkeeping fields: `time_last_refreshed := now` and `refresh_count`
incremented by one.  In particular `expiration_time` never moves, so a
session's absolute lifetime is fixed no matter how often it is refreshed. -/
theorem slide_session_frame (refresh_token : Jwt RefreshData)
    (settings : Settings) (db : DB) (now : Nat) (db' : DB) (bundle : TokenBundle)
    (h : slide_session refresh_token settings db now = .ok (db', bundle)) :
    db'.principals = db.principals ∧ db'.identities = db.identities ∧
    db'.nextPrincipalId = db.nextPrincipalId ∧
    db'.nextSessionId = db.nextSessionId ∧
    List.Forall₂ (slideFrame now) db.sessions db'.sessions := by
  simp only [slide_session] at h
  split at h
  · exact Except.noConfusion h
  · exact Except.noConfusion h
  · split at h
    · exact Except.noConfusion h
    · split at h
      · exact Except.noConfusion h
      · split at h
        · exact Except.noConfusion h
        · split at h
          · exact Except.noConfusion h
          · injection h with h'
            injection h' with hdb _
            subst hdb
            exact ⟨rfl, rfl, rfl, rfl, slideFrame_updateFirst now _ db.sessions⟩

/-- The store after sliding the active session of `oneUserDb` at t=5. -/
def slidOneUserDb : DB := { oneUserDb with sessions := [slideUpdate 5 activeSession] }

/-- The token bundle issued by that slide. -/
def slidBundle : TokenBundle :=
  { access_token := create_access_token { sub := "principal-uuid-0", sub_typ := "user", ids := [("alice", "orcid")] } "current-key" 15 5,
    expires_in := 15,
    refresh_token := create_refresh_token "session-uuid-0" "current-key" 100 5,
    refresh_token_expires_in := 100,
    token_type := "bearer" }

/-- Witness for C5: sliding the active session of `oneUserDb` at t=5. -/
theorem slide_session_frame_witness :
    slidOneUserDb.principals = oneUserDb.principals ∧
    slidOneUserDb.identities = oneUserDb.identities ∧
    slidOneUserDb.nextPrincipalId = oneUserDb.nextPrincipalId ∧
    slidOneUserDb.nextSessionId = oneUserDb.nextSessionId ∧
    List.Forall₂ (slideFrame 5) oneUserDb.sessions slidOneUserDb.sessions :=
  slide_session_frame testRefreshToken testSettings oneUserDb 5
    slidOneUserDb slidBundle (by rfl)

/-- The store after a first login for a brand-new `(provider, id)` on the
empty store: one Principal, one linking Identity, one fresh Session. -/
def freshLoginStore (settings : Settings) (identity_provider id : String)
    (now : Nat) : DB :=
  { principals := [{ id := 0, uuid := newPrincipalUuid 0, type := "user" }],
    identities := [{ id := id, provider := identity_provider, principal_id := 0 }],
    sessions := [newSessionRow 0 0 (now + settings.session_max_age)],
    nextPrincipalId := 1,
    nextSessionId := 1 }

/-- The token bundle a login issues for that Principal and the Session with
uuid `session_uuid`, encoded with the current key `k`. -/
def loginBundle (settings : Settings) (identity_provider id : String)
    (now : Nat) (k : String) (session_uuid : String) : TokenBundle :=
  { access_token := create_access_token { sub := newPrincipalUuid 0, sub_typ := "user", ids := [(id, identity_provider)] } k settings.access_token_max_age now,
    expires_in := settings.access_token_max_age,
    refresh_token := create_refresh_token session_uuid k settings.refresh_token_max_age now,
    refresh_token_expires_in := settings.refresh_token_max_age,
    token_type := "bearer" }

/-- The store after a second login for the same pair: same Principal and
Identity rows, one more Session. -/
def secondLoginStore (settings : Settings) (identity_provider id : String)
    (now now2 : Nat) : DB :=
  { freshLoginStore settings identity_provider id now with
    sessions := [newSessionRow 0 0 (now + settings.session_max_age), newSessionRow 1 0 (now2 + settings.session_max_age)],
    nextSessionId := 2 }

/-- C6: calling `create_session` twice with the same
`(identity_provider, id)` pair (starting from the empty store, any times,
any settings with a non-empty key list) creates two *distinct* Session rows
— each with its own uuid, `expiration_time = now + session_max_age` for its
own call time, `revoked = false`, `refresh_count = 0`, both linked to
principal 0 — while the second call reuses the Principal and Identity
created by the first: the principals and identities tables are unchanged by
the second call, each holding exactly one row. -/
theorem create_session_reuses_principal (settings : Settings)
    (identity_provider id : String) (now now2 : Nat) (k : String)
    (ks : List String) (hk : settings.secret_keys = k :: ks) :
    create_session DB.empty settings identity_provider id now =
      .ok (freshLoginStore settings identity_provider id now, loginBundle settings identity_provider id now k (newSessionUuid 0)) ∧
    create_session (freshLoginStore settings identity_provider id now) settings identity_provider id now2 =
      .ok (secondLoginStore settings identity_provider id now now2, loginBundle settings identity_provider id now2 k (newSessionUuid 1)) ∧
    (secondLoginStore settings identity_provider id now now2).principals =
      (freshLoginStore settings identity_provider id now).principals ∧
    (secondLoginStore settings identity_provider id now now2).identities =
      (freshLoginStore settings identity_provider id now).identities ∧
    (freshLoginStore settings identity_provider id now).principals.length = 1 ∧
    (freshLoginStore settings identity_provider id now).identities.length = 1 ∧
    (secondLoginStore settings identity_provider id now now2).sessions =
      [newSessionRow 0 0 (now + settings.session_max_age), newSessionRow 1 0 (now2 + settings.session_max_age)] ∧
    (newSessionRow 0 0 (now + settings.session_max_age)).uuid ≠
      (newSessionRow 1 0 (now2 + settings.session_max_age)).uuid ∧
    (newSessionRow 0 0 (now + settings.session_max_age)).revoked = false ∧
    (newSessionRow 0 0 (now + settings.session_max_age)).refresh_count = 0 ∧
    (newSessionRow 1 0 (now2 + settings.session_max_age)).revoked = false ∧
    (newSessionRow 1 0 (now2 + settings.session_max_age)).refresh_count = 0 := by
  refine ⟨?_, ?_, rfl, rfl, rfl, rfl, rfl, ?_, rfl, rfl, rfl, rfl⟩
  · simp [create_session, create_session_run, finishCreateSession, DB.empty,
      hk, principalFromOrm, freshLoginStore, loginBundle, newSessionRow, List.find?]
  · simp [create_session, create_session_run, finishCreateSession, hk,
      principalFromOrm, findPrincipal, freshLoginStore, secondLoginStore,
      loginBundle, newSessionRow, List.find?]
  · simp only [newSessionRow]
    decide

/-- Witness for C6: the two login calls at t=3 and t=7 for
`("orcid", "alice")` under the test settings. -/
theorem create_session_reuses_principal_witness :
    create_session DB.empty testSettings "orcid" "alice" 3 =
      .ok (freshLoginStore testSettings "orcid" "alice" 3, loginBundle testSettings "orcid" "alice" 3 "current-key" (newSessionUuid 0)) ∧
    create_session (freshLoginStore testSettings "orcid" "alice" 3) testSettings "orcid" "alice" 7 =
      .ok (secondLoginStore testSettings "orcid" "alice" 3 7, loginBundle testSettings "orcid" "alice" 7 "current-key" (newSessionUuid 1)) :=
  ⟨(create_session_reuses_principal testSettings "orcid" "alice" 3 7 "current-key" ["old-key"] rfl).1,
   (create_session_reuses_principal testSettings "orcid" "alice" 3 7 "current-key" ["old-key"] rfl).2.1⟩

end Tiled
